import Mathlib

/-!
Verification development for the MPT update circuit core
(src/src/gadgets/mpt_update.rs together with the column primitives in
src/src/constraint_builder/column.rs).

The constraint-registration code (MptUpdateConfig::configure and the
configure_* helper functions) is embedded as a list of gated constraints
over a three-row window (previous, current, next), mirroring the
rotations used by AdviceColumn::previous/current and the OneHot
next_matches/current_matches combinators.  The witness-assignment code
(MptUpdateConfig::assign) is embedded as explicit recursive functions on
the same data.

The segment/path/proof-kind enumerations live in files of the repository
that are not part of src/ (segment.rs, path.rs, lib.rs); their variant
sets are exactly the ones exercised by mpt_update.rs and the spec and are
reproduced here.  The IsZeroGadget, IsEqualGadget and OneHot gadgets are
likewise external collaborators; their semantics (indicator columns that
are 1 exactly on the matching variant, zero-test and equality-test
gadgets) are modelled from the spec, as is the lookup-oracle interface
(hash relation, key-bit relation and byte-range relation).
-/

namespace MptCircuit

/-- Position within the authentication path or leaf encoding.  Variants as
used by mpt_update.rs (the enumeration itself lives in segment.rs, which
only mpt_update.rs exercises). -/
inductive SegmentType
  | Start
  | AccountTrie
  | AccountLeaf0
  | AccountLeaf1
  | AccountLeaf2
  | AccountLeaf3
  | AccountLeaf4
  | StorageTrie
  | StorageLeaf0
  | StorageLeaf1
deriving DecidableEq

/-- Path divergence state.  Variants as used by mpt_update.rs (the
enumeration itself lives in path.rs). -/
inductive PathType
  | Start
  | Common
  | ExtensionOld
  | ExtensionNew
deriving DecidableEq

/-- Claim kinds.  The variant set is the one matched on by
MptUpdateConfig::configure (the enumeration itself lives outside src/);
the wildcard arm of the source match is expanded over the remaining
variants, as MPTProofType::iter does. -/
inductive MPTProofType
  | NonceChanged
  | BalanceChanged
  | CodeHashExists
  | AccountDoesNotExist
  | AccountDestructed
  | StorageChanged
  | StorageDoesNotExist
  | PoseidonCodeHashExists
  | CodeSizeExists
deriving DecidableEq

/-- One row of the constraint table: the advice columns of
MptUpdateConfig, with the three one-hot columns represented by their
decoded enumeration value. -/
structure Row (F : Type) where
  segmentType : SegmentType
  pathType : PathType
  proofType : MPTProofType
  oldHash : F
  newHash : F
  oldValue : F
  newValue : F
  address : F
  storageKeyRlc : F
  depth : F
  key : F
  direction : F
  sibling : F
  upper128 : F
  otherKey : F
  otherKeyHash : F
  otherLeafDataHash : F
deriving DecidableEq

/-- A three-row window: the rotations -1, 0, 1 queried by the configure
code (previous, current, next). -/
structure Window (F : Type) where
  prev : Row F
  cur : Row F
  next : Row F
deriving DecidableEq

def Window.row {F : Type} (w : Window F) (r : Int) : Row F :=
  if r = -1 then w.prev else if r = 1 then w.next else w.cur

/-- Identifiers for the plain advice columns referenced by constraint
expressions. -/
inductive ColId
  | oldHash
  | newHash
  | oldValue
  | newValue
  | address
  | storageKeyRlc
  | depth
  | key
  | direction
  | sibling
  | upper128
  | otherKey
  | otherKeyHash
  | otherLeafDataHash
deriving DecidableEq

def ColId.read {F : Type} (w : Window F) (r : Int) : ColId → F
  | .oldHash => (w.row r).oldHash
  | .newHash => (w.row r).newHash
  | .oldValue => (w.row r).oldValue
  | .newValue => (w.row r).newValue
  | .address => (w.row r).address
  | .storageKeyRlc => (w.row r).storageKeyRlc
  | .depth => (w.row r).depth
  | .key => (w.row r).key
  | .direction => (w.row r).direction
  | .sibling => (w.row r).sibling
  | .upper128 => (w.row r).upper128
  | .otherKey => (w.row r).otherKey
  | .otherKeyHash => (w.row r).otherKeyHash
  | .otherLeafDataHash => (w.row r).otherLeafDataHash

/-- Gating conditions (BinaryQuery values built from the one-hot
matchers, the IsZeroGadget / IsEqualGadget outputs, and the boolean
combinators used in configure). -/
inductive Cond
  | segMatches (r : Int) (ss : List SegmentType)
  | pathMatches (r : Int) (ps : List PathType)
  | proofMatches (ts : List MPTProofType)
  | oldHashZero
  | newHashZero
  | keyEqOther
  | notC (c : Cond)
  | andC (a b : Cond)
deriving DecidableEq

def Cond.eval {F : Type} [Field F] [DecidableEq F] (w : Window F) : Cond → Bool
  | .segMatches r ss => decide ((w.row r).segmentType ∈ ss)
  | .pathMatches r ps => decide ((w.row r).pathType ∈ ps)
  | .proofMatches ts => decide (w.cur.proofType ∈ ts)
  | .oldHashZero => decide (w.cur.oldHash = 0)
  | .newHashZero => decide (w.cur.newHash = 0)
  | .keyEqOther => decide (w.cur.key = w.cur.otherKey)
  | .notC c => !(c.eval w)
  | .andC a b => a.eval w && b.eval w

/-- Query expressions over the window columns. -/
inductive Expr (F : Type)
  | const (c : F)
  | col (c : ColId) (r : Int)
  | add (a b : Expr F)
  | sub (a b : Expr F)
  | mul (a b : Expr F)
deriving DecidableEq

instance {F : Type} : Add (Expr F) := ⟨Expr.add⟩
instance {F : Type} : Sub (Expr F) := ⟨Expr.sub⟩
instance {F : Type} : Mul (Expr F) := ⟨Expr.mul⟩
instance {F : Type} [Field F] (n : Nat) : OfNat (Expr F) n := ⟨Expr.const (n : F)⟩

def Expr.eval {F : Type} [Field F] (w : Window F) : Expr F → F
  | .const c => c
  | .col c r => ColId.read w r c
  | .add a b => a.eval w + b.eval w
  | .sub a b => a.eval w - b.eval w
  | .mul a b => a.eval w * b.eval w

/-- Whether the expression reads the given column (at any rotation). -/
def Expr.mentionsCol {F : Type} (c : ColId) : Expr F → Bool
  | .const _ => false
  | .col c2 _ => decide (c2 = c)
  | .add a b => a.mentionsCol c || b.mentionsCol c
  | .sub a b => a.mentionsCol c || b.mentionsCol c
  | .mul a b => a.mentionsCol c || b.mentionsCol c

/-- The external lookup tables consumed by configure:
the hash relation, the key-bit relation and the byte-range relation. -/
inductive Table
  | poseidon
  | keyBit
  | bytes
deriving DecidableEq

/-- A single registered constraint body: an algebraic assertion or a
lookup into one of the external tables.  assert_unreachable registers a
gate that can never be satisfied while its gating condition is active. -/
inductive Gate (F : Type)
  | assertZero (name : String) (e : Expr F)
  | assertEqual (name : String) (a b : Expr F)
  | lookup (name : String) (t : Table) (args : List (Expr F))
  | unreachableGate (name : String)
deriving DecidableEq

/-- A constraint together with the stack of gating conditions under which
it was registered (cb.condition nesting). -/
structure Constraint (F : Type) where
  conds : List Cond
  gate : Gate F
deriving DecidableEq

/-- cb.condition: prepend a gating condition to every constraint of a
block. -/
def under {F : Type} (c : Cond) (cs : List (Constraint F)) : List (Constraint F) :=
  cs.map (fun k => { k with conds := c :: k.conds })

/-- An oracle instantiation of the external lookup tables
(boolean-valued relations over the looked-up tuples). -/
def OracleB (F : Type) := Table → List F → Bool

def trivialOracle {F : Type} : OracleB F := fun _ _ => true

def Gate.holdsB {F : Type} [Field F] [DecidableEq F] (o : OracleB F) (w : Window F) :
    Gate F → Bool
  | .assertZero _ e => decide (e.eval w = 0)
  | .assertEqual _ a b => decide (a.eval w = b.eval w)
  | .lookup _ t args => o t (args.map (Expr.eval w))
  | .unreachableGate _ => false

/-- A constraint is satisfied on a window when its gating conditions do
not all hold, or its gate holds. -/
def Constraint.holdsB {F : Type} [Field F] [DecidableEq F] (o : OracleB F) (w : Window F)
    (c : Constraint F) : Bool :=
  !(c.conds.all (Cond.eval w)) || c.gate.holdsB o w

def holdsAllB {F : Type} [Field F] [DecidableEq F] (cs : List (Constraint F)) (o : OracleB F)
    (w : Window F) : Bool :=
  cs.all (Constraint.holdsB o w)

section Configure

variable {F : Type} [Field F]

/-- Shorthand for a current-row column query. -/
def curE (c : ColId) : Expr F := Expr.col c 0

/-- Shorthand for a previous-row column query. -/
def prevE (c : ColId) : Expr F := Expr.col c (-1)

/-- The constant 2^32 (the literal 1 << 32 of the source). -/
def twoPow32 : Expr F := Expr.const ((2 : F) ^ 32)

/-- fn old_left. -/
def old_left : Expr F :=
  curE .direction * curE .sibling + (1 - curE .direction) * curE .oldHash

/-- fn old_right. -/
def old_right : Expr F :=
  curE .direction * curE .oldHash + (1 - curE .direction) * curE .sibling

/-- fn new_left. -/
def new_left : Expr F :=
  curE .direction * curE .sibling + (1 - curE .direction) * curE .newHash

/-- fn new_right. -/
def new_right : Expr F :=
  curE .direction * curE .newHash + (1 - curE .direction) * curE .sibling

/-- The segment types matched by the is_trie / trie-segment conditions. -/
def trieSegs : List SegmentType := [.AccountTrie, .StorageTrie]

def isTrieCond : Cond := .segMatches 0 trieSegs

/-- The constraints registered directly in MptUpdateConfig::configure
before the path-type and proof-type dispatch (key-bit lookups, depth
bookkeeping, and the byte-range check on upper_128_bits). -/
def baseConstraints : List (Constraint F) :=
  under isTrieCond
    [⟨[], .lookup "direction is correct for key and depth" .keyBit
        [curE .key, curE .depth - 1, curE .direction]⟩,
     ⟨[], .assertEqual "depth increases by 1 in trie segments"
        (curE .depth) (prevE .depth + 1)⟩]
  ++ under isTrieCond (under (.pathMatches 0 [.Common])
    [⟨[], .lookup "direction is correct for other_key and depth" .keyBit
        [curE .otherKey, curE .depth - 1, curE .direction]⟩])
  ++ under (.notC isTrieCond)
    [⟨[], .assertZero "key is 0 in non-trie segments" (curE .key)⟩,
     ⟨[], .assertZero "depth is 0 in non-trie segments" (curE .depth)⟩]
  ++ [⟨[], .lookup "upper_128_bits is 16 bytes" .bytes [curE .upper128, 15]⟩]

/-- fn configure_common_path. -/
def configure_common_path : List (Constraint F) :=
  [⟨[], .lookup "poseidon hash correct for old common path" .poseidon
      [old_left, old_right, prevE .oldHash]⟩,
   ⟨[], .lookup "poseidon hash correct for new common path" .poseidon
      [new_left, new_right, prevE .newHash]⟩]
  ++ under (.andC (.pathMatches 1 [.ExtensionNew]) (.segMatches 1 [.AccountLeaf0]))
    [⟨[], .assertZero "old hash is zero for type 2 empty account" (curE .oldHash)⟩]
  ++ under (.andC (.pathMatches 1 [.ExtensionOld]) (.segMatches 1 [.AccountLeaf0]))
    [⟨[], .assertZero "new hash is zero for type 2 empty account" (curE .newHash)⟩]

/-- The is_final_trie_segment condition of configure_extension_old:
the current row is a trie segment and the next row is not. -/
def isFinalTrieCond : Cond :=
  .andC (.segMatches 0 trieSegs) (.notC (.segMatches 1 trieSegs))

/-- fn configure_extension_old.  The source registers the sibling-zero
constraint under the negation of is_final_trie_segment, registers nothing
at all under is_final_trie_segment (the displaced-leaf check is a TODO
with an empty body), and asserts new_hash frozen unconditionally. -/
def configure_extension_old : List (Constraint F) :=
  under (.notC isFinalTrieCond)
    [⟨[], .assertZero "sibling is zero for non-final old extension path segments"
        (curE .sibling)⟩]
  ++ under isFinalTrieCond ([] : List (Constraint F))
  ++ [⟨[], .assertEqual "new_hash unchanged for path_type=Old"
      (curE .newHash) (prevE .newHash)⟩]

/-- fn configure_extension_new. -/
def configure_extension_new : List (Constraint F) :=
  [⟨[], .assertZero "old value is 0 if old account is empty" (curE .oldValue)⟩]
  ++ under (.segMatches 0 trieSegs)
    (under (.notC (.notC (.segMatches 1 trieSegs)))
      [⟨[], .assertZero "sibling is zero for non-final new extension path segments"
          (curE .sibling)⟩]
     ++ under (.notC (.segMatches 1 trieSegs))
      [⟨[], .assertEqual "sibling is old leaf hash for final new extension path segments"
          (curE .sibling) (curE .oldHash)⟩])
  ++ [⟨[], .assertEqual "old_hash unchanged for path_type=New"
        (curE .oldHash) (prevE .oldHash)⟩,
      ⟨[], .lookup "poseidon hash correct for new path" .poseidon
        [new_left, new_right, prevE .newHash]⟩]
  ++ under (.segMatches 0 [.AccountLeaf0])
    ([⟨[], .lookup "other_key_hash = h(1, other_key)" .poseidon
        [1, curE .otherKey, curE .otherKeyHash]⟩]
     ++ under (.notC .oldHashZero)
      [⟨[], .lookup "previous old_hash = h(data_hash, key_hash)" .poseidon
          [curE .otherKeyHash, curE .otherLeafDataHash, prevE .oldHash]⟩]
     ++ under (.notC .keyEqOther)
      [⟨[], .assertZero "if old account is type 1, then old value is 0"
          (curE .oldValue)⟩])

/-- The address_low expression of configure_nonce / configure_balance. -/
def addressLowExpr : Expr F :=
  (curE .address - curE .upper128 * twoPow32) * twoPow32 * twoPow32 * twoPow32

/-- The inverse constant F::from(1 << 32).square().invert().unwrap(). -/
def invTwoPow64 : F := (((2 : F) ^ 32) ^ 2)⁻¹

/-- The old_code_size expression of configure_nonce. -/
def oldCodeSizeExpr : Expr F :=
  (curE .oldHash - curE .oldValue) * Expr.const invTwoPow64

/-- The new_code_size expression of configure_nonce. -/
def newCodeSizeExpr : Expr F :=
  (curE .newHash - curE .newValue) * Expr.const invTwoPow64

/-- The AccountLeaf0 block shared by configure_nonce and
configure_balance (direction is 1, key and leaf-marker hash lookups). -/
def accountLeaf0Constraints : List (Constraint F) :=
  [⟨[], .assertEqual "direction is 1" (curE .direction) 1⟩,
   ⟨[], .lookup "key = h(address_high, address_low)" .poseidon
      [curE .upper128, addressLowExpr, prevE .key]⟩,
   ⟨[], .lookup "sibling = h(1, key)" .poseidon
      [1, prevE .key, curE .sibling]⟩]

/-- The AccountLeaf3 block of configure_nonce.  Note that the source
queries old_value in the byte-range lookups labelled as checking the new
nonce. -/
def nonceLeaf3Constraints : List (Constraint F) :=
  [⟨[], .assertZero "direction is 0" (curE .direction)⟩]
  ++ under (.pathMatches 0 [.Common])
    [⟨[], .lookup "old nonce is 8 bytes" .bytes [curE .oldValue, 7]⟩,
     ⟨[], .lookup "new nonce is 8 bytes" .bytes [curE .oldValue, 7]⟩,
     ⟨[], .assertEqual "old_code_size = new_code_size for nonce update"
        oldCodeSizeExpr newCodeSizeExpr⟩,
     ⟨[], .lookup "existing code size is 8 bytes" .bytes [oldCodeSizeExpr, 7]⟩]
  ++ under (.pathMatches 0 [.ExtensionNew])
    [⟨[], .lookup "new nonce is 8 bytes" .bytes [curE .oldValue, 7]⟩,
     ⟨[], .assertZero "code size is 0 for ExtensionNew nonce update" newCodeSizeExpr⟩]
  ++ under (.pathMatches 0 [.ExtensionOld])
    [⟨[], .lookup "old nonce is 8 bytes" .bytes [curE .oldValue, 7]⟩,
     ⟨[], .assertZero "code size is 0 for ExtensionOld nonce update" oldCodeSizeExpr⟩]

/-- fn configure_nonce: the SegmentType::iter loop unrolled. -/
def configure_nonce : List (Constraint F) :=
  under (.segMatches 0 [.Start]) ([] : List (Constraint F))
  ++ under (.segMatches 0 [.AccountTrie]) ([] : List (Constraint F))
  ++ under (.segMatches 0 [.AccountLeaf0]) accountLeaf0Constraints
  ++ under (.segMatches 0 [.AccountLeaf1])
    [⟨[], .assertZero "direction is 0" (curE .direction)⟩]
  ++ under (.segMatches 0 [.AccountLeaf2])
    [⟨[], .assertZero "direction is 0" (curE .direction)⟩]
  ++ under (.segMatches 0 [.AccountLeaf3]) nonceLeaf3Constraints
  ++ under (.segMatches 0 [.AccountLeaf4])
    [⟨[], .unreachableGate "unreachable segment type for nonce update"⟩]
  ++ under (.segMatches 0 [.StorageTrie])
    [⟨[], .unreachableGate "unreachable segment type for nonce update"⟩]
  ++ under (.segMatches 0 [.StorageLeaf0])
    [⟨[], .unreachableGate "unreachable segment type for nonce update"⟩]
  ++ under (.segMatches 0 [.StorageLeaf1])
    [⟨[], .unreachableGate "unreachable segment type for nonce update"⟩]

/-- The AccountLeaf3 block of configure_balance. -/
def balanceLeaf3Constraints : List (Constraint F) :=
  [⟨[], .assertEqual "direction is 1" (curE .direction) 1⟩]
  ++ under (.pathMatches 0 [.Common, .ExtensionOld])
    [⟨[], .assertEqual "old_hash is old balance" (curE .oldValue) (curE .oldHash)⟩]
  ++ under (.pathMatches 0 [.Common, .ExtensionNew])
    [⟨[], .assertEqual "new_hash is new balance" (curE .newValue) (curE .newHash)⟩]

/-- fn configure_balance: the SegmentType::iter loop unrolled (the
unreachable message string is the one of the source, which reuses the
nonce wording). -/
def configure_balance : List (Constraint F) :=
  under (.segMatches 0 [.Start]) ([] : List (Constraint F))
  ++ under (.segMatches 0 [.AccountTrie]) ([] : List (Constraint F))
  ++ under (.segMatches 0 [.AccountLeaf0]) accountLeaf0Constraints
  ++ under (.segMatches 0 [.AccountLeaf1])
    [⟨[], .assertZero "direction is 0" (curE .direction)⟩]
  ++ under (.segMatches 0 [.AccountLeaf2])
    [⟨[], .assertZero "direction is 0" (curE .direction)⟩]
  ++ under (.segMatches 0 [.AccountLeaf3]) balanceLeaf3Constraints
  ++ under (.segMatches 0 [.AccountLeaf4])
    [⟨[], .unreachableGate "unreachable segment type for nonce update"⟩]
  ++ under (.segMatches 0 [.StorageTrie])
    [⟨[], .unreachableGate "unreachable segment type for nonce update"⟩]
  ++ under (.segMatches 0 [.StorageLeaf0])
    [⟨[], .unreachableGate "unreachable segment type for nonce update"⟩]
  ++ under (.segMatches 0 [.StorageLeaf1])
    [⟨[], .unreachableGate "unreachable segment type for nonce update"⟩]

/-- fn configure_code_hash: the body of the source function is empty. -/
def configure_code_hash : List (Constraint F) := []

/-- fn configure_empty_account: the body of the source function is empty. -/
def configure_empty_account : List (Constraint F) := []

/-- fn configure_self_destruct: the body of the source function is empty. -/
def configure_self_destruct : List (Constraint F) := []

/-- fn configure_storage: the body of the source function is empty. -/
def configure_storage : List (Constraint F) := []

/-- fn configure_empty_storage: the body of the source function is empty. -/
def configure_empty_storage : List (Constraint F) := []

/-- The per-proof-kind dispatch of MptUpdateConfig::configure.  A branch
that panicked at configuration time (todo or unimplemented) would map to
an error value; every live branch of the source returns normally, the
five stub kinds with an empty constraint list. -/
def configureProofKind : MPTProofType → Except String (List (Constraint F))
  | .NonceChanged => .ok configure_nonce
  | .BalanceChanged => .ok configure_balance
  | .CodeHashExists => .ok configure_code_hash
  | .AccountDoesNotExist => .ok configure_empty_account
  | .AccountDestructed => .ok configure_self_destruct
  | .StorageChanged => .ok configure_storage
  | _ => .ok configure_empty_storage

def proofBucket (v : MPTProofType) : List (Constraint F) :=
  match (configureProofKind v : Except String (List (Constraint F))) with
  | .ok cs => cs
  | .error _ => []

/-- The PathType::iter loop of configure, unrolled. -/
def pathConstraints : List (Constraint F) :=
  under (.pathMatches 0 [.Start]) ([] : List (Constraint F))
  ++ under (.pathMatches 0 [.Common]) configure_common_path
  ++ under (.pathMatches 0 [.ExtensionOld]) configure_extension_old
  ++ under (.pathMatches 0 [.ExtensionNew]) configure_extension_new

/-- The MPTProofType::iter loop of configure, unrolled. -/
def proofConstraints : List (Constraint F) :=
  under (.proofMatches [.NonceChanged]) (proofBucket .NonceChanged)
  ++ under (.proofMatches [.BalanceChanged]) (proofBucket .BalanceChanged)
  ++ under (.proofMatches [.CodeHashExists]) (proofBucket .CodeHashExists)
  ++ under (.proofMatches [.AccountDoesNotExist]) (proofBucket .AccountDoesNotExist)
  ++ under (.proofMatches [.AccountDestructed]) (proofBucket .AccountDestructed)
  ++ under (.proofMatches [.StorageChanged]) (proofBucket .StorageChanged)
  ++ under (.proofMatches [.StorageDoesNotExist]) (proofBucket .StorageDoesNotExist)
  ++ under (.proofMatches [.PoseidonCodeHashExists]) (proofBucket .PoseidonCodeHashExists)
  ++ under (.proofMatches [.CodeSizeExists]) (proofBucket .CodeSizeExists)

/-- Every constraint registered by MptUpdateConfig::configure.  The
backward state-machine transition block of the source (lines 227-249) is
commented out there and therefore contributes nothing. -/
def mptConstraints : List (Constraint F) :=
  baseConstraints ++ pathConstraints ++ proofConstraints

/-- All registered constraints hold on a window. -/
def rowHoldsB [DecidableEq F] (o : OracleB F) (w : Window F) : Bool :=
  holdsAllB mptConstraints o w

end Configure

section LookupInterface

variable {F : Type} [Field F]

/-- The Start-segment indicator of MptUpdateLookup::lookup: the one-hot
segment column evaluated against SegmentType::Start. -/
def isStartInd [DecidableEq F] (r : Row F) : F :=
  if r.segmentType = SegmentType.Start then 1 else 0

/-- MptUpdateLookup::lookup evaluated on one row: the 7-entry tuple
[proof_type, old_root, new_root, old_value, new_value, address,
storage_key_rlc].  The proof-type entry is the one-hot encoding of the
current proof type (parameterised here by the encoding function of the
external OneHot gadget); the six remaining entries are each multiplied by
the Start-segment indicator. -/
def lookupTuple [DecidableEq F] (enc : MPTProofType → F) (r : Row F) : List F :=
  [enc r.proofType,
   r.oldHash * isStartInd r,
   r.newHash * isStartInd r,
   r.oldValue * isStartInd r,
   r.newValue * isStartInd r,
   r.address * isStartInd r,
   r.storageKeyRlc * isStartInd r]

end LookupInterface

section Assign

variable {F : Type} [Field F] [DecidableEq F]

/-- One entry of proof.address_hash_traces: per-depth
(direction, old_hash, new_hash, sibling, is_padding_open,
is_padding_close). -/
structure AddressHashTrace (F : Type) where
  direction : Bool
  oldHash : F
  newHash : F
  sibling : F
  isPaddingOpen : Bool
  isPaddingClose : Bool
deriving DecidableEq

/-- The path-type classification of one authentication step performed by
MptUpdateConfig::assign (source lines 366-377): the match on
(is_padding_open, is_padding_close), with the assert_eq statements and
the unreachable arm modelled as none. -/
def classifyPathType (previousOldHash previousNewHash : F) (t : AddressHashTrace F) :
    Option PathType :=
  match t.isPaddingOpen, t.isPaddingClose with
  | false, false => some PathType.Common
  | false, true =>
      if t.newHash = previousNewHash then some PathType.ExtensionOld else none
  | true, false =>
      if t.oldHash = previousOldHash then some PathType.ExtensionNew else none
  | true, true => none

/-- The per-step hash-consistency asserts of MptUpdateConfig::assign
(source lines 404-435), for a step already classified as pt. -/
def stepChecksOk (hash : F → F → F) (previousOldHash previousNewHash : F)
    (t : AddressHashTrace F) : PathType → Bool
  | .Start => true
  | .Common =>
      if t.direction then
        decide (hash t.sibling t.oldHash = previousOldHash) &&
          decide (hash t.sibling t.newHash = previousNewHash)
      else
        decide (hash t.oldHash t.sibling = previousOldHash) &&
          decide (hash t.newHash t.sibling = previousNewHash)
  | .ExtensionOld =>
      decide (t.newHash = previousNewHash) &&
        (if t.direction then decide (hash t.sibling t.oldHash = previousOldHash)
         else decide (hash t.oldHash t.sibling = previousOldHash))
  | .ExtensionNew =>
      decide (t.oldHash = previousOldHash) &&
        (if t.direction then decide (hash t.sibling t.newHash = previousNewHash)
         else decide (hash t.newHash t.sibling = previousNewHash))

/-- The running-hash update of MptUpdateConfig::assign: Common advances
both sides, ExtensionOld advances only the old side, ExtensionNew only
the new side. -/
def stepAdvance (previousOldHash previousNewHash : F) (t : AddressHashTrace F) :
    PathType → F × F
  | .Start => (previousOldHash, previousNewHash)
  | .Common => (t.oldHash, t.newHash)
  | .ExtensionOld => (t.oldHash, previousNewHash)
  | .ExtensionNew => (previousOldHash, t.newHash)

/-- The trie-walk loop of MptUpdateConfig::assign over the
root-to-leaf-ordered steps (the source iterates
address_hash_traces.iter().rev()), threading the running
previous_old_hash / previous_new_hash and collecting the assigned path
types; any failed assert or the unreachable arm aborts the whole walk. -/
def assignTrieRows (hash : F → F → F) :
    F → F → List (AddressHashTrace F) → Option (List PathType)
  | _, _, [] => some []
  | po, pn, t :: rest =>
    match classifyPathType po pn t with
    | none => none
    | some pt =>
      if stepChecksOk hash po pn t pt then
        match assignTrieRows hash (stepAdvance po pn t pt).1 (stepAdvance po pn t pt).2 rest with
        | none => none
        | some pts => some (pt :: pts)
      else none

/-- The shape data of one Proof that determines the row offsets written
by MptUpdateConfig::assign.  nSteps is the length of
address_hash_traces; endCommon tells whether the walk ended with
path_type Common; finalOldZero / finalNewZero record whether the hashes
of the final step (address_hash_traces.first()) are zero; nRows is the
value of Proof::n_rows.  Modelled from the spec for n_rows: one Start row,
one row per authentication step, plus the fixed five-row account-leaf
block (Proof::n_rows lives in types.rs, outside src/). -/
structure ProofShape where
  nRows : Nat
  nSteps : Nat
  endCommon : Bool
  finalOldZero : Bool
  finalNewZero : Bool
deriving DecidableEq

/-- Which group of columns a single region write of
MptUpdateConfig::assign touches: the claim-wide prefix loop (proof_type,
address, storage_key_rlc, old_value, new_value, other_key,
other_key_hash, other_leaf_data_hash), the Start row, a trie row, an
account-leaf row (the latter three all write segment_type, path_type,
old_hash and new_hash), or the upper_128_bits write. -/
inductive WriteKind
  | claimWide
  | startRow
  | trieRow
  | leafRow
  | upperRow
deriving DecidableEq

/-- Whether two write kinds touch at least one common column. -/
def WriteKind.sharesColumn : WriteKind → WriteKind → Bool
  | .claimWide, .claimWide => true
  | .claimWide, _ => false
  | _, .claimWide => false
  | .upperRow, .upperRow => true
  | .upperRow, _ => false
  | _, .upperRow => false
  | _, _ => true

/-- The (kind, offset) writes performed for one proof starting at row
offset off, mirroring MptUpdateConfig::assign: the claim-wide prefix loop
over 0..n_rows, the Start row, one trie row per step, and -- unless the
trace is empty or the walk ended at Common with both final hashes zero --
the five account-leaf rows plus the upper_128_bits write at the leaf
block start. -/
def proofRowWrites (off : Nat) (p : ProofShape) : List (WriteKind × Nat) :=
  ((List.range p.nRows).map (fun i => (WriteKind.claimWide, off + i)))
  ++ [(WriteKind.startRow, off)]
  ++ ((List.range p.nSteps).map (fun j => (WriteKind.trieRow, off + 1 + j)))
  ++ (if p.nSteps = 0 then []
      else if p.endCommon && p.finalOldZero && p.finalNewZero then []
      else ((List.range 5).map (fun i => (WriteKind.leafRow, off + 1 + p.nSteps + i)))
           ++ [(WriteKind.upperRow, off + 1 + p.nSteps)])

/-- The offset at which the next proof starts: the source increments the
offset once for the Start row and once per trie row, and performs no
increment after the account-leaf block. -/
def proofNextOffset (off : Nat) (p : ProofShape) : Nat := off + 1 + p.nSteps

/-- All writes of MptUpdateConfig::assign for a batch of proofs, tagged
with the index of the claim that performed them. -/
def assignWritesFrom : Nat → Nat → List ProofShape → List (Nat × WriteKind × Nat)
  | _, _, [] => []
  | idx, off, p :: ps =>
      ((proofRowWrites off p).map (fun wr => (idx, wr.1, wr.2)))
      ++ assignWritesFrom (idx + 1) (proofNextOffset off p) ps

def assignWrites (ps : List ProofShape) : List (Nat × WriteKind × Nat) :=
  assignWritesFrom 0 0 ps

/-- Two writes from different claims hit the same offset in a shared
column. -/
def hasCrossClaimConflict (ws : List (Nat × WriteKind × Nat)) : Bool :=
  ws.any (fun a => ws.any (fun b =>
    decide (a.1 ≠ b.1) && decide (a.2.2 = b.2.2) && a.2.1.sharesColumn b.2.1))

end Assign

section SpecModel

/-- Modelled from the spec: the legal predecessor segments of each
segment state per the segment sequence of section 4.1 (Start, then
AccountTrie repeated, then AccountLeaf0..4, optionally StorageTrie
repeated, then StorageLeaf0..1; claims are concatenated so a Start row
may follow the final row of a previous claim).  The corresponding
backward_transitions tables live in segment.rs / path.rs, outside src/. -/
def legalSegBackward : SegmentType → List SegmentType
  | .Start => [.Start, .AccountLeaf4, .StorageLeaf1]
  | .AccountTrie => [.Start, .AccountTrie]
  | .AccountLeaf0 => [.Start, .AccountTrie]
  | .AccountLeaf1 => [.AccountLeaf0]
  | .AccountLeaf2 => [.AccountLeaf1]
  | .AccountLeaf3 => [.AccountLeaf2]
  | .AccountLeaf4 => [.AccountLeaf3]
  | .StorageTrie => [.AccountLeaf4, .StorageTrie]
  | .StorageLeaf0 => [.AccountLeaf4, .StorageTrie]
  | .StorageLeaf1 => [.StorageLeaf0]

/-- Whether a gating condition reads the segment or path state of the
previous row (rotation -1). -/
def Cond.mentionsPrevRowState : Cond → Bool
  | .segMatches r _ => decide (r = -1)
  | .pathMatches r _ => decide (r = -1)
  | .proofMatches _ => false
  | .oldHashZero => false
  | .newHashZero => false
  | .keyEqOther => false
  | .notC c => c.mentionsPrevRowState
  | .andC a b => a.mentionsPrevRowState || b.mentionsPrevRowState

end SpecModel

section ConcreteField

/-- A small prime field used to instantiate the generic development on
concrete inputs, with a kernel-computable inverse (a^11 is the inverse of
a in the field with 13 elements). -/
instance : Field (Fin 13) where
  __ := (inferInstance : CommRing (Fin 13))
  inv := fun a => a ^ 11
  div := fun a b => a * b ^ 11
  div_eq_mul_inv := fun _ _ => rfl
  exists_pair_ne := ⟨0, 1, by decide⟩
  mul_inv_cancel := by decide
  inv_zero := by decide
  nnqsmul := _
  qsmul := _

/-- The concrete field for witnesses and counterexamples. -/
abbrev FF : Type := Fin 13

/-- A concrete byte-range oracle that rejects any lookup whose argument
tuple contains the value 5 (and accepts every hash-relation and key-bit
lookup): used to show that a value can escape all registered byte-range
lookups. -/
def rejectFiveOracle : OracleB FF := fun t args =>
  match t with
  | .bytes => !(decide ((5 : FF) ∈ args))
  | _ => true

/-- A concrete asymmetric instantiation of the hash-relation oracle: the
graph of the function h(a, b) = a + 2 b, for which h(a, b) and h(b, a)
differ whenever a differs from b.  The byte-range and key-bit tables are
left unconstrained. -/
def asymOracle : OracleB FF := fun t args =>
  match t with
  | .poseidon =>
      match args with
      | [a, b, c] => decide (c = a + 2 * b)
      | _ => false
  | _ => true

end ConcreteField

section ConcreteWindows

/-- The all-zero Start row over the concrete field. -/
def zRow : Row FF :=
  { segmentType := .Start
    pathType := .Start
    proofType := .NonceChanged
    oldHash := 0
    newHash := 0
    oldValue := 0
    newValue := 0
    address := 0
    storageKeyRlc := 0
    depth := 0
    key := 0
    direction := 0
    sibling := 0
    upper128 := 0
    otherKey := 0
    otherKeyHash := 0
    otherLeafDataHash := 0 }

/-- A Common AccountTrie row whose predecessor row is a StorageLeaf1 row:
an illegal backward segment transition. -/
def transWindow : Window FF :=
  { prev := { zRow with segmentType := .StorageLeaf1 }
    cur := { zRow with segmentType := .AccountTrie, pathType := .Common, depth := 1 }
    next := { zRow with segmentType := .AccountLeaf0, pathType := .Common } }

/-- An ExtensionOld AccountLeaf1 row with a non-zero sibling. -/
def leafSiblingWindow : Window FF :=
  { prev := zRow
    cur := { zRow with
      segmentType := .AccountLeaf1
      pathType := .ExtensionOld
      sibling := 5 }
    next := zRow }

/-- A final ExtensionOld trie row (current row AccountTrie, next row
AccountLeaf0) whose sibling 7 differs from every hash-carrying cell of
the window. -/
def finalTrieWindow : Window FF :=
  { prev := { zRow with segmentType := .AccountTrie, newHash := 3, oldHash := 10 }
    cur := { zRow with
      segmentType := .AccountTrie
      pathType := .ExtensionOld
      proofType := .NonceChanged
      depth := 1
      key := 5
      sibling := 7
      oldHash := 9
      newHash := 3 }
    next := { zRow with segmentType := .AccountLeaf0, pathType := .ExtensionOld } }

/-- An ExtensionOld AccountLeaf1 row satisfying every registered
constraint (sibling zero, new_hash frozen). -/
def leafSiblingZeroWindow : Window FF :=
  { prev := zRow
    cur := { zRow with segmentType := .AccountLeaf1, pathType := .ExtensionOld }
    next := zRow }

/-- A Common-path NonceChanged AccountLeaf3 row whose new value (the new
nonce) is the value 5 rejected by rejectFiveOracle, while the old value 0
passes every byte-range lookup. -/
def nonceUncheckedWindow : Window FF :=
  { prev := zRow
    cur := { zRow with
      segmentType := .AccountLeaf3
      pathType := .Common
      proofType := .NonceChanged
      newHash := 5
      newValue := 5 }
    next := { zRow with segmentType := .AccountLeaf4, pathType := .Common } }

/-- An ExtensionNew NonceChanged AccountLeaf3 row whose old-side code
size expression (old_hash - old_value scaled by the inverse of 2^64) is
non-zero, while the new-side code size is 0. -/
def extNewCodeSizeWindow : Window FF :=
  { prev := { zRow with oldHash := 1 }
    cur := { zRow with
      segmentType := .AccountLeaf3
      pathType := .ExtensionNew
      proofType := .NonceChanged
      oldHash := 1
      newHash := 3
      newValue := 3 }
    next := zRow }

/-- An ExtensionNew NonceChanged AccountLeaf0 row satisfying every
registered constraint under the asymmetric hash oracle, with non-zero
old_hash; the previous old_hash 11 is the oracle hash of
(other_key_hash, other_leaf_data_hash) = (5, 3), not of (3, 5). -/
def extNewLeaf0Window : Window FF :=
  { prev := { zRow with oldHash := 11, newHash := 7 }
    cur := { zRow with
      segmentType := .AccountLeaf0
      pathType := .ExtensionNew
      proofType := .NonceChanged
      oldHash := 11
      newHash := 3
      direction := 1
      sibling := 1
      otherKey := 2
      otherKeyHash := 5
      otherLeafDataHash := 3 }
    next := zRow }

/-- A Common-path BalanceChanged AccountLeaf3 row with both leaf hashes
equal to the claimed balances. -/
def balanceWindow : Window FF :=
  { prev := zRow
    cur := { zRow with
      segmentType := .AccountLeaf3
      pathType := .Common
      proofType := .BalanceChanged
      direction := 1
      oldValue := 4
      oldHash := 4
      newValue := 6
      newHash := 6 }
    next := { zRow with pathType := .Common } }

end ConcreteWindows


section HelperLemmas

variable {F : Type} [Field F] [DecidableEq F]

/-- Extract the satisfaction of a single registered constraint from the
satisfaction of the whole system. -/
theorem rowHolds_elim {o : OracleB F} {w : Window F} {c : Constraint F}
    (h : rowHoldsB o w = true) (hm : c ∈ mptConstraints) :
    Constraint.holdsB o w c = true := by
  have h2 : (mptConstraints (F := F)).all (Constraint.holdsB o w) = true := h
  exact List.all_eq_true.mp h2 c hm

/-- A satisfied constraint whose gating conditions all hold has a
satisfied gate. -/
theorem holdsB_gate {o : OracleB F} {w : Window F} {c : Constraint F}
    (h : Constraint.holdsB o w c = true) (hc : c.conds.all (Cond.eval w) = true) :
    c.gate.holdsB o w = true := by
  unfold Constraint.holdsB at h
  rw [hc] at h
  simpa using h

omit [DecidableEq F] in
theorem mem_mpt_of_path {c : Constraint F} (h : c ∈ pathConstraints) :
    c ∈ mptConstraints := by
  unfold mptConstraints
  exact List.mem_append.mpr (Or.inl (List.mem_append.mpr (Or.inr h)))

omit [DecidableEq F] in
theorem mem_mpt_of_proof {c : Constraint F} (h : c ∈ proofConstraints) :
    c ∈ mptConstraints := by
  unfold mptConstraints
  exact List.mem_append.mpr (Or.inr h)

end HelperLemmas

section ClaimC1

/-- C1: the claim states that requesting an unimplemented claim kind
(code hash, account non-existence, account destruction, storage change,
storage non-existence) fails at configuration time.  This is false: each
of the five configure_* stubs is an empty function, so the configuration
branch for each of these kinds returns normally with an empty constraint
list instead of failing. -/
theorem c1_counterexample :
    configureProofKind (F := FF) MPTProofType.CodeHashExists = Except.ok []
    ∧ configureProofKind (F := FF) MPTProofType.AccountDoesNotExist = Except.ok []
    ∧ configureProofKind (F := FF) MPTProofType.AccountDestructed = Except.ok []
    ∧ configureProofKind (F := FF) MPTProofType.StorageChanged = Except.ok []
    ∧ configureProofKind (F := FF) MPTProofType.StorageDoesNotExist = Except.ok [] :=
  ⟨rfl, rfl, rfl, rfl, rfl⟩

/-- Whether the configuration branch for a proof kind returns normally
with an empty constraint list. -/
def configureSilent {F : Type} [Field F] (v : MPTProofType) : Bool :=
  match (configureProofKind v : Except String (List (Constraint F))) with
  | .ok cs => cs.isEmpty
  | .error _ => false

/-- C1 (amended): for every unimplemented claim kind, constraint
registration succeeds (returns normally) and silently registers no
constraints for that kind: the full constraint system contains no
constraint gated on any of the five kinds. -/
theorem c1_stub_kinds_silent :
    ([MPTProofType.CodeHashExists, MPTProofType.AccountDoesNotExist,
      MPTProofType.AccountDestructed, MPTProofType.StorageChanged,
      MPTProofType.StorageDoesNotExist].all (fun v =>
        ((mptConstraints (F := FF)).filter
            (fun c => decide (Cond.proofMatches [v] ∈ c.conds))).isEmpty
        && configureSilent (F := FF) v)) = true := by
  decide

end ClaimC1

section ClaimC2

/-- C2: the claim states that every row after the first registers a
constraint checking the previous row's segment and path state against
the legal predecessor set.  This is false: the backward-transition block
of configure is commented out, so the system accepts a window whose
predecessor state (StorageLeaf1 before AccountTrie) is not a legal
predecessor, with every registered constraint satisfied. -/
theorem c2_counterexample :
    rowHoldsB trivialOracle transWindow = true
    ∧ transWindow.prev.segmentType = SegmentType.StorageLeaf1
    ∧ transWindow.cur.segmentType = SegmentType.AccountTrie
    ∧ transWindow.prev.segmentType ∉ legalSegBackward transWindow.cur.segmentType := by
  decide

/-- C2 (amended): no registered constraint conditions on the previous
row's segment or path state at all (gating conditions are the only place
the one-hot state columns can be referenced, and none of them uses
rotation -1), so no backward state-machine validation is registered. -/
theorem c2_no_backward_validation :
    (mptConstraints (F := FF)).all
      (fun c => c.conds.all (fun k => !(Cond.mentionsPrevRowState k))) = true := by
  decide

end ClaimC2

section ClaimC3

/-- The shape of a claim with one authentication step ending at an
occupied leaf on both sides (a plain update of an existing account):
n_rows is 1 Start row + 1 trie row + 5 leaf rows. -/
def overlapShape : ProofShape :=
  { nRows := 7, nSteps := 1, endCommon := true, finalOldZero := false,
    finalNewZero := false }

/-- C3: assign never advances the row offset past the five account-leaf
rows, so for a batch of two one-step claims the first claim writes its
AccountLeaf0 row at offset 2 and the second claim writes its Start row at
the same offset 2 in the same columns: the offsets are not monotonically
increasing across claims and the cell is written twice. -/
theorem c3_offset_overlap :
    (0, WriteKind.leafRow, 2) ∈ assignWrites [overlapShape, overlapShape]
    ∧ (1, WriteKind.startRow, 2) ∈ assignWrites [overlapShape, overlapShape]
    ∧ WriteKind.sharesColumn WriteKind.leafRow WriteKind.startRow = true
    ∧ hasCrossClaimConflict (assignWrites [overlapShape, overlapShape]) = true := by
  decide

end ClaimC3

section ClaimC5

/-- C5: the claim states that the old and the new nonce are each
independently range-checked to 8 bytes.  The code range-checks only
old_value: no byte-range lookup registered anywhere in the system
mentions the new_value column (the lookup labelled as checking the new
nonce queries old_value), and a window whose new value is rejected by
the byte oracle still satisfies every registered constraint because that
value is never submitted to the byte table. -/
theorem c5_new_nonce_unchecked :
    ((mptConstraints (F := FF)).all (fun c =>
        match c.gate with
        | Gate.lookup _ Table.bytes args =>
            args.all (fun e => !(Expr.mentionsCol ColId.newValue e))
        | _ => true) = true)
    ∧ rowHoldsB rejectFiveOracle nonceUncheckedWindow = true
    ∧ nonceUncheckedWindow.cur.newValue = 5
    ∧ nonceUncheckedWindow.cur.proofType = MPTProofType.NonceChanged
    ∧ nonceUncheckedWindow.cur.segmentType = SegmentType.AccountLeaf3
    ∧ nonceUncheckedWindow.cur.pathType = PathType.Common
    ∧ rejectFiveOracle Table.bytes [nonceUncheckedWindow.cur.newValue, 7] = false := by
  decide

end ClaimC5

section ClaimC4

/-- The sibling-zero constraint of configure_extension_old, with the
gating-condition stack it carries in the registered system. -/
def sibZeroOldConstraint {F : Type} : Constraint F :=
  ⟨[Cond.pathMatches 0 [PathType.ExtensionOld], Cond.notC isFinalTrieCond],
   Gate.assertZero "sibling is zero for non-final old extension path segments"
     (curE ColId.sibling)⟩

theorem sibZeroOld_mem {F : Type} [Field F] :
    (sibZeroOldConstraint : Constraint F) ∈ mptConstraints :=
  mem_mpt_of_path (by
    simp [pathConstraints, configure_extension_old, under, configure_common_path,
      configure_extension_new, sibZeroOldConstraint])

/-- C4: the claim states that on ExtensionOld rows the sibling is forced
to 0 at every non-final trie row (but not at leaf rows), and that at the
final trie row the sibling is constrained to hold the displaced leaf's
hash.  Both final parts are false: a final ExtensionOld trie row whose
sibling 7 differs from every hash value of the window satisfies every
registered constraint (the displaced-leaf branch of
configure_extension_old is empty), and the sibling-zero constraint is
active on ExtensionOld account-leaf rows (it is gated only on not being
a final trie row), where it rejects a non-zero sibling. -/
theorem c4_counterexample :
    (rowHoldsB trivialOracle finalTrieWindow = true
      ∧ finalTrieWindow.cur.pathType = PathType.ExtensionOld
      ∧ Cond.eval finalTrieWindow isFinalTrieCond = true
      ∧ finalTrieWindow.cur.sibling = 7
      ∧ finalTrieWindow.cur.oldHash ≠ 7
      ∧ finalTrieWindow.cur.newHash ≠ 7
      ∧ finalTrieWindow.cur.otherKeyHash ≠ 7
      ∧ finalTrieWindow.cur.otherLeafDataHash ≠ 7
      ∧ finalTrieWindow.prev.oldHash ≠ 7
      ∧ finalTrieWindow.prev.newHash ≠ 7)
    ∧ ((sibZeroOldConstraint : Constraint FF) ∈ mptConstraints
      ∧ leafSiblingWindow.cur.segmentType = SegmentType.AccountLeaf1
      ∧ leafSiblingWindow.cur.pathType = PathType.ExtensionOld
      ∧ Constraint.holdsB trivialOracle leafSiblingWindow sibZeroOldConstraint = false) := by
  decide

/-- C4 (amended): on every ExtensionOld row that is not a final trie row
-- including Start-segment and account-leaf rows, since the gate is
conditioned only on the is_final_trie_segment indicator -- the sibling
column is constrained to 0; at the final trie row the source registers no
sibling constraint at all (the displaced-leaf check is an empty TODO
branch). -/
theorem c4_sibling_zero {F : Type} [Field F] [DecidableEq F] (o : OracleB F)
    (w : Window F)
    (hp : w.cur.pathType = PathType.ExtensionOld)
    (hfin : Cond.eval w isFinalTrieCond = false)
    (h : rowHoldsB o w = true) :
    w.cur.sibling = 0 := by
  have hc := rowHolds_elim h (sibZeroOld_mem (F := F))
  have e1 : Cond.eval w (Cond.pathMatches 0 [PathType.ExtensionOld]) = true := by
    show decide (w.cur.pathType ∈ [PathType.ExtensionOld]) = true
    rw [hp]
    rfl
  have e2 : Cond.eval w (Cond.notC isFinalTrieCond) = true := by
    show (!(Cond.eval w isFinalTrieCond)) = true
    rw [hfin]
    rfl
  have hcnd : (sibZeroOldConstraint (F := F)).conds.all (Cond.eval w) = true := by
    show (Cond.eval w (Cond.pathMatches 0 [PathType.ExtensionOld])
      && (Cond.eval w (Cond.notC isFinalTrieCond) && true)) = true
    rw [e1, e2]
    rfl
  have hg := holdsB_gate hc hcnd
  have hz : decide (Expr.eval w (curE ColId.sibling) = 0) = true := hg
  exact of_decide_eq_true hz

/-- Witness for c4_sibling_zero at a concrete ExtensionOld account-leaf
row. -/
theorem c4_sibling_zero_witness : leafSiblingZeroWindow.cur.sibling = 0 :=
  c4_sibling_zero trivialOracle leafSiblingZeroWindow rfl (by decide) (by decide)

end ClaimC4

section ClaimC6

/-- The zero-code-size constraint that configure_nonce registers for the
ExtensionNew path at AccountLeaf3, as it appears in the registered
system: it constrains the new side. -/
def extNewCodeSizeConstraint {F : Type} [Field F] : Constraint F :=
  ⟨[Cond.proofMatches [MPTProofType.NonceChanged],
    Cond.segMatches 0 [SegmentType.AccountLeaf3],
    Cond.pathMatches 0 [PathType.ExtensionNew]],
   Gate.assertZero "code size is 0 for ExtensionNew nonce update" newCodeSizeExpr⟩

/-- The zero-code-size constraint registered for the ExtensionOld path:
it constrains the old side. -/
def extOldCodeSizeConstraint {F : Type} [Field F] : Constraint F :=
  ⟨[Cond.proofMatches [MPTProofType.NonceChanged],
    Cond.segMatches 0 [SegmentType.AccountLeaf3],
    Cond.pathMatches 0 [PathType.ExtensionOld]],
   Gate.assertZero "code size is 0 for ExtensionOld nonce update" oldCodeSizeExpr⟩

theorem extNewCodeSize_mem {F : Type} [Field F] :
    (extNewCodeSizeConstraint : Constraint F) ∈ mptConstraints :=
  mem_mpt_of_proof (by
    simp [proofConstraints, proofBucket, configureProofKind, configure_nonce,
      nonceLeaf3Constraints, accountLeaf0Constraints, configure_balance,
      balanceLeaf3Constraints, configure_code_hash, configure_empty_account,
      configure_self_destruct, configure_storage, configure_empty_storage,
      under, extNewCodeSizeConstraint])

theorem extOldCodeSize_mem {F : Type} [Field F] :
    (extOldCodeSizeConstraint : Constraint F) ∈ mptConstraints :=
  mem_mpt_of_proof (by
    simp [proofConstraints, proofBucket, configureProofKind, configure_nonce,
      nonceLeaf3Constraints, accountLeaf0Constraints, configure_balance,
      balanceLeaf3Constraints, configure_code_hash, configure_empty_account,
      configure_self_destruct, configure_storage, configure_empty_storage,
      under, extOldCodeSizeConstraint])

/-- C6: the claim states that for a NonceChanged claim at AccountLeaf3
the frozen side's code size is constrained to 0 (the new side for
ExtensionOld, the old side for ExtensionNew).  This is false: an
ExtensionNew window whose old-side code-size expression evaluates to a
non-zero value satisfies every registered constraint, because the code
constrains the new side for ExtensionNew (and the old side for
ExtensionOld), i.e. the present side, not the frozen one. -/
theorem c6_counterexample :
    rowHoldsB trivialOracle extNewCodeSizeWindow = true
    ∧ extNewCodeSizeWindow.cur.proofType = MPTProofType.NonceChanged
    ∧ extNewCodeSizeWindow.cur.segmentType = SegmentType.AccountLeaf3
    ∧ extNewCodeSizeWindow.cur.pathType = PathType.ExtensionNew
    ∧ (extNewCodeSizeWindow.cur.oldHash - extNewCodeSizeWindow.cur.oldValue)
        * invTwoPow64 ≠ 0 := by
  decide

/-- C6 (amended): for a NonceChanged claim at an AccountLeaf3 row, the
code registers a zero-code-size constraint on the present (extended)
side: the new side's code size for ExtensionNew and the old side's code
size for ExtensionOld. -/
theorem c6_present_side_code_size {F : Type} [Field F] [DecidableEq F]
    (o : OracleB F) (w : Window F)
    (hs : w.cur.segmentType = SegmentType.AccountLeaf3)
    (hp : w.cur.proofType = MPTProofType.NonceChanged)
    (h : rowHoldsB o w = true) :
    (w.cur.pathType = PathType.ExtensionNew →
      (w.cur.newHash - w.cur.newValue) * invTwoPow64 = 0)
    ∧ (w.cur.pathType = PathType.ExtensionOld →
      (w.cur.oldHash - w.cur.oldValue) * invTwoPow64 = 0) := by
  have e1 : Cond.eval w (Cond.proofMatches [MPTProofType.NonceChanged]) = true := by
    show decide (w.cur.proofType ∈ [MPTProofType.NonceChanged]) = true
    rw [hp]
    rfl
  have e2 : Cond.eval w (Cond.segMatches 0 [SegmentType.AccountLeaf3]) = true := by
    show decide (w.cur.segmentType ∈ [SegmentType.AccountLeaf3]) = true
    rw [hs]
    rfl
  constructor
  · intro hpath
    have hc := rowHolds_elim h (extNewCodeSize_mem (F := F))
    have e3 : Cond.eval w (Cond.pathMatches 0 [PathType.ExtensionNew]) = true := by
      show decide (w.cur.pathType ∈ [PathType.ExtensionNew]) = true
      rw [hpath]
      rfl
    have hcnd : (extNewCodeSizeConstraint (F := F)).conds.all (Cond.eval w) = true := by
      show (Cond.eval w (Cond.proofMatches [MPTProofType.NonceChanged])
        && (Cond.eval w (Cond.segMatches 0 [SegmentType.AccountLeaf3])
        && (Cond.eval w (Cond.pathMatches 0 [PathType.ExtensionNew]) && true))) = true
      rw [e1, e2, e3]
      rfl
    have hg := holdsB_gate hc hcnd
    have hz : decide (Expr.eval w newCodeSizeExpr = 0) = true := hg
    exact of_decide_eq_true hz
  · intro hpath
    have hc := rowHolds_elim h (extOldCodeSize_mem (F := F))
    have e3 : Cond.eval w (Cond.pathMatches 0 [PathType.ExtensionOld]) = true := by
      show decide (w.cur.pathType ∈ [PathType.ExtensionOld]) = true
      rw [hpath]
      rfl
    have hcnd : (extOldCodeSizeConstraint (F := F)).conds.all (Cond.eval w) = true := by
      show (Cond.eval w (Cond.proofMatches [MPTProofType.NonceChanged])
        && (Cond.eval w (Cond.segMatches 0 [SegmentType.AccountLeaf3])
        && (Cond.eval w (Cond.pathMatches 0 [PathType.ExtensionOld]) && true))) = true
      rw [e1, e2, e3]
      rfl
    have hg := holdsB_gate hc hcnd
    have hz : decide (Expr.eval w oldCodeSizeExpr = 0) = true := hg
    exact of_decide_eq_true hz

/-- Witness for c6_present_side_code_size at a concrete ExtensionNew
AccountLeaf3 row. -/
theorem c6_present_side_code_size_witness :
    (extNewCodeSizeWindow.cur.newHash - extNewCodeSizeWindow.cur.newValue)
      * invTwoPow64 = 0 :=
  (c6_present_side_code_size trivialOracle extNewCodeSizeWindow rfl rfl
    (by decide)).1 rfl

end ClaimC6

section ClaimC7

/-- The lookup constraint other_key_hash = h(1, other_key) registered by
configure_extension_new at the AccountLeaf0 boundary. -/
def otherKeyHashConstraint {F : Type} [Field F] : Constraint F :=
  ⟨[Cond.pathMatches 0 [PathType.ExtensionNew],
    Cond.segMatches 0 [SegmentType.AccountLeaf0]],
   Gate.lookup "other_key_hash = h(1, other_key)" Table.poseidon
     [1, curE ColId.otherKey, curE ColId.otherKeyHash]⟩

/-- The lookup constraint on the previous old_hash registered by
configure_extension_new when the current old_hash is non-zero.  Note the
argument order of the registered tuple: (other_key_hash,
other_leaf_data_hash, previous old_hash). -/
def prevOldHashConstraint {F : Type} [Field F] : Constraint F :=
  ⟨[Cond.pathMatches 0 [PathType.ExtensionNew],
    Cond.segMatches 0 [SegmentType.AccountLeaf0],
    Cond.notC Cond.oldHashZero],
   Gate.lookup "previous old_hash = h(data_hash, key_hash)" Table.poseidon
     [curE ColId.otherKeyHash, curE ColId.otherLeafDataHash, prevE ColId.oldHash]⟩

/-- The type-1 old-value constraint registered by configure_extension_new
when key and other_key differ. -/
def type1OldValueConstraint {F : Type} [Field F] : Constraint F :=
  ⟨[Cond.pathMatches 0 [PathType.ExtensionNew],
    Cond.segMatches 0 [SegmentType.AccountLeaf0],
    Cond.notC Cond.keyEqOther],
   Gate.assertZero "if old account is type 1, then old value is 0"
     (curE ColId.oldValue)⟩

theorem otherKeyHash_mem {F : Type} [Field F] :
    (otherKeyHashConstraint : Constraint F) ∈ mptConstraints :=
  mem_mpt_of_path (by
    simp [pathConstraints, configure_extension_new, under, configure_common_path,
      configure_extension_old, otherKeyHashConstraint])

theorem prevOldHash_mem {F : Type} [Field F] :
    (prevOldHashConstraint : Constraint F) ∈ mptConstraints :=
  mem_mpt_of_path (by
    simp [pathConstraints, configure_extension_new, under, configure_common_path,
      configure_extension_old, prevOldHashConstraint])

theorem type1OldValue_mem {F : Type} [Field F] :
    (type1OldValueConstraint : Constraint F) ∈ mptConstraints :=
  mem_mpt_of_path (by
    simp [pathConstraints, configure_extension_new, under, configure_common_path,
      configure_extension_old, type1OldValueConstraint])

/-- C7: the claim states that, at an ExtensionNew AccountLeaf0 row with
non-zero old_hash, the previous old_hash is constrained to equal
H(other_leaf_data_hash, other_key_hash).  The registered lookup actually
uses the swapped argument order H(other_key_hash, other_leaf_data_hash):
under a concrete asymmetric hash-relation oracle, a window whose previous
old_hash is the oracle hash of (other_key_hash, other_leaf_data_hash)
but not of (other_leaf_data_hash, other_key_hash) satisfies every
registered constraint. -/
theorem c7_counterexample :
    rowHoldsB asymOracle extNewLeaf0Window = true
    ∧ extNewLeaf0Window.cur.pathType = PathType.ExtensionNew
    ∧ extNewLeaf0Window.cur.segmentType = SegmentType.AccountLeaf0
    ∧ extNewLeaf0Window.cur.oldHash ≠ 0
    ∧ asymOracle Table.poseidon
        [extNewLeaf0Window.cur.otherLeafDataHash,
         extNewLeaf0Window.cur.otherKeyHash,
         extNewLeaf0Window.prev.oldHash] = false := by
  decide

/-- C7 (amended): at every ExtensionNew AccountLeaf0 row, the hash
relation is looked up with (1, other_key, other_key_hash); whenever the
row's old_hash is non-zero the hash relation is looked up with
(other_key_hash, other_leaf_data_hash, previous old_hash) -- key hash
first, data hash second; and whenever key differs from other_key the old
value is constrained to 0. -/
theorem c7_other_leaf_lookups {F : Type} [Field F] [DecidableEq F]
    (o : OracleB F) (w : Window F)
    (hs : w.cur.segmentType = SegmentType.AccountLeaf0)
    (hp : w.cur.pathType = PathType.ExtensionNew)
    (h : rowHoldsB o w = true) :
    o Table.poseidon [1, w.cur.otherKey, w.cur.otherKeyHash] = true
    ∧ (w.cur.oldHash ≠ 0 →
        o Table.poseidon
          [w.cur.otherKeyHash, w.cur.otherLeafDataHash, w.prev.oldHash] = true)
    ∧ (w.cur.key ≠ w.cur.otherKey → w.cur.oldValue = 0) := by
  have e1 : Cond.eval w (Cond.pathMatches 0 [PathType.ExtensionNew]) = true := by
    show decide (w.cur.pathType ∈ [PathType.ExtensionNew]) = true
    rw [hp]
    rfl
  have e2 : Cond.eval w (Cond.segMatches 0 [SegmentType.AccountLeaf0]) = true := by
    show decide (w.cur.segmentType ∈ [SegmentType.AccountLeaf0]) = true
    rw [hs]
    rfl
  refine ⟨?_, ?_, ?_⟩
  · have hc := rowHolds_elim h (otherKeyHash_mem (F := F))
    have hcnd : (otherKeyHashConstraint (F := F)).conds.all (Cond.eval w) = true := by
      show (Cond.eval w (Cond.pathMatches 0 [PathType.ExtensionNew])
        && (Cond.eval w (Cond.segMatches 0 [SegmentType.AccountLeaf0]) && true)) = true
      rw [e1, e2]
      rfl
    have hg := holdsB_gate hc hcnd
    have hg2 : o Table.poseidon
        [((1 : ℕ) : F), w.cur.otherKey, w.cur.otherKeyHash] = true := hg
    simpa using hg2
  · intro hnz
    have hc := rowHolds_elim h (prevOldHash_mem (F := F))
    have e3 : Cond.eval w (Cond.notC Cond.oldHashZero) = true := by
      show (!(decide (w.cur.oldHash = 0))) = true
      simp [hnz]
    have hcnd : (prevOldHashConstraint (F := F)).conds.all (Cond.eval w) = true := by
      show (Cond.eval w (Cond.pathMatches 0 [PathType.ExtensionNew])
        && (Cond.eval w (Cond.segMatches 0 [SegmentType.AccountLeaf0])
        && (Cond.eval w (Cond.notC Cond.oldHashZero) && true))) = true
      rw [e1, e2, e3]
      rfl
    have hg := holdsB_gate hc hcnd
    exact hg
  · intro hne
    have hc := rowHolds_elim h (type1OldValue_mem (F := F))
    have e3 : Cond.eval w (Cond.notC Cond.keyEqOther) = true := by
      show (!(decide (w.cur.key = w.cur.otherKey))) = true
      simp [hne]
    have hcnd : (type1OldValueConstraint (F := F)).conds.all (Cond.eval w) = true := by
      show (Cond.eval w (Cond.pathMatches 0 [PathType.ExtensionNew])
        && (Cond.eval w (Cond.segMatches 0 [SegmentType.AccountLeaf0])
        && (Cond.eval w (Cond.notC Cond.keyEqOther) && true))) = true
      rw [e1, e2, e3]
      rfl
    have hg := holdsB_gate hc hcnd
    have hz : decide (Expr.eval w (curE ColId.oldValue) = 0) = true := hg
    exact of_decide_eq_true hz

/-- Witness for c7_other_leaf_lookups at a concrete ExtensionNew
AccountLeaf0 window under the asymmetric hash oracle. -/
theorem c7_other_leaf_lookups_witness :
    asymOracle Table.poseidon
      [extNewLeaf0Window.cur.otherKeyHash,
       extNewLeaf0Window.cur.otherLeafDataHash,
       extNewLeaf0Window.prev.oldHash] = true :=
  (c7_other_leaf_lookups asymOracle extNewLeaf0Window rfl rfl (by decide)).2.1
    (by decide)

end ClaimC7

section ClaimC8

/-- C8: the Row Assigner classifies each authentication step from its
padding flags exactly as the claim states: (false, false) gives Common;
(false, true) gives ExtensionOld provided the step's new_hash equals the
running previous new hash and aborts otherwise; (true, false) gives
ExtensionNew provided the step's old_hash equals the running previous
old hash and aborts otherwise; (true, true) aborts; and an aborted
classification aborts the whole trie walk. -/
theorem c8_classify {F : Type} [DecidableEq F] (hash : F → F → F) (po pn : F)
    (t : AddressHashTrace F) (rest : List (AddressHashTrace F)) :
    (t.isPaddingOpen = false → t.isPaddingClose = false →
      classifyPathType po pn t = some PathType.Common)
    ∧ (t.isPaddingOpen = false → t.isPaddingClose = true → t.newHash = pn →
      classifyPathType po pn t = some PathType.ExtensionOld)
    ∧ (t.isPaddingOpen = false → t.isPaddingClose = true → t.newHash ≠ pn →
      classifyPathType po pn t = none)
    ∧ (t.isPaddingOpen = true → t.isPaddingClose = false → t.oldHash = po →
      classifyPathType po pn t = some PathType.ExtensionNew)
    ∧ (t.isPaddingOpen = true → t.isPaddingClose = false → t.oldHash ≠ po →
      classifyPathType po pn t = none)
    ∧ (t.isPaddingOpen = true → t.isPaddingClose = true →
      classifyPathType po pn t = none)
    ∧ (classifyPathType po pn t = none →
      assignTrieRows hash po pn (t :: rest) = none) := by
  refine ⟨?_, ?_, ?_, ?_, ?_, ?_, ?_⟩
  · intro h1 h2; simp [classifyPathType, h1, h2]
  · intro h1 h2 h3; simp [classifyPathType, h1, h2, h3]
  · intro h1 h2 h3; simp [classifyPathType, h1, h2, h3]
  · intro h1 h2 h3; simp [classifyPathType, h1, h2, h3]
  · intro h1 h2 h3; simp [classifyPathType, h1, h2, h3]
  · intro h1 h2; simp [classifyPathType, h1, h2]
  · intro h1; simp [assignTrieRows, h1]

/-- Witness for c8_classify: a concrete padded-close step with matching
new hash is classified ExtensionOld. -/
theorem c8_classify_witness :
    classifyPathType (5 : FF) 7 ⟨true, 0, 7, 0, false, true⟩
      = some PathType.ExtensionOld :=
  (c8_classify (fun a _ => a) 5 7 ⟨true, 0, 7, 0, false, true⟩ []).2.1 rfl rfl rfl

end ClaimC8

section ClaimC9

/-- The direction constraint of configure_balance at AccountLeaf3. -/
def balanceDirConstraint {F : Type} [Field F] : Constraint F :=
  ⟨[Cond.proofMatches [MPTProofType.BalanceChanged],
    Cond.segMatches 0 [SegmentType.AccountLeaf3]],
   Gate.assertEqual "direction is 1" (curE ColId.direction) 1⟩

/-- The old-side balance constraint of configure_balance at
AccountLeaf3. -/
def balanceOldConstraint {F : Type} [Field F] : Constraint F :=
  ⟨[Cond.proofMatches [MPTProofType.BalanceChanged],
    Cond.segMatches 0 [SegmentType.AccountLeaf3],
    Cond.pathMatches 0 [PathType.Common, PathType.ExtensionOld]],
   Gate.assertEqual "old_hash is old balance" (curE ColId.oldValue) (curE ColId.oldHash)⟩

/-- The new-side balance constraint of configure_balance at
AccountLeaf3. -/
def balanceNewConstraint {F : Type} [Field F] : Constraint F :=
  ⟨[Cond.proofMatches [MPTProofType.BalanceChanged],
    Cond.segMatches 0 [SegmentType.AccountLeaf3],
    Cond.pathMatches 0 [PathType.Common, PathType.ExtensionNew]],
   Gate.assertEqual "new_hash is new balance" (curE ColId.newValue) (curE ColId.newHash)⟩

theorem balanceDir_mem {F : Type} [Field F] :
    (balanceDirConstraint : Constraint F) ∈ mptConstraints :=
  mem_mpt_of_proof (by
    simp [proofConstraints, proofBucket, configureProofKind, configure_nonce,
      nonceLeaf3Constraints, accountLeaf0Constraints, configure_balance,
      balanceLeaf3Constraints, configure_code_hash, configure_empty_account,
      configure_self_destruct, configure_storage, configure_empty_storage,
      under, balanceDirConstraint])

theorem balanceOld_mem {F : Type} [Field F] :
    (balanceOldConstraint : Constraint F) ∈ mptConstraints :=
  mem_mpt_of_proof (by
    simp [proofConstraints, proofBucket, configureProofKind, configure_nonce,
      nonceLeaf3Constraints, accountLeaf0Constraints, configure_balance,
      balanceLeaf3Constraints, configure_code_hash, configure_empty_account,
      configure_self_destruct, configure_storage, configure_empty_storage,
      under, balanceOldConstraint])

theorem balanceNew_mem {F : Type} [Field F] :
    (balanceNewConstraint : Constraint F) ∈ mptConstraints :=
  mem_mpt_of_proof (by
    simp [proofConstraints, proofBucket, configureProofKind, configure_nonce,
      nonceLeaf3Constraints, accountLeaf0Constraints, configure_balance,
      balanceLeaf3Constraints, configure_code_hash, configure_empty_account,
      configure_self_destruct, configure_storage, configure_empty_storage,
      under, balanceNewConstraint])

/-- C9: for a BalanceChanged claim at an AccountLeaf3 row, direction is
constrained to 1, and wherever a side is present -- both sides for
Common, the old side for ExtensionOld, the new side for ExtensionNew --
that side's leaf hash column is constrained equal to that side's claimed
value directly, with no further hashing. -/
theorem c9_balance_direct {F : Type} [Field F] [DecidableEq F]
    (o : OracleB F) (w : Window F)
    (hs : w.cur.segmentType = SegmentType.AccountLeaf3)
    (hp : w.cur.proofType = MPTProofType.BalanceChanged)
    (h : rowHoldsB o w = true) :
    w.cur.direction = 1
    ∧ ((w.cur.pathType = PathType.Common ∨ w.cur.pathType = PathType.ExtensionOld) →
        w.cur.oldValue = w.cur.oldHash)
    ∧ ((w.cur.pathType = PathType.Common ∨ w.cur.pathType = PathType.ExtensionNew) →
        w.cur.newValue = w.cur.newHash) := by
  have e1 : Cond.eval w (Cond.proofMatches [MPTProofType.BalanceChanged]) = true := by
    show decide (w.cur.proofType ∈ [MPTProofType.BalanceChanged]) = true
    rw [hp]
    rfl
  have e2 : Cond.eval w (Cond.segMatches 0 [SegmentType.AccountLeaf3]) = true := by
    show decide (w.cur.segmentType ∈ [SegmentType.AccountLeaf3]) = true
    rw [hs]
    rfl
  refine ⟨?_, ?_, ?_⟩
  · have hc := rowHolds_elim h (balanceDir_mem (F := F))
    have hcnd : (balanceDirConstraint (F := F)).conds.all (Cond.eval w) = true := by
      show (Cond.eval w (Cond.proofMatches [MPTProofType.BalanceChanged])
        && (Cond.eval w (Cond.segMatches 0 [SegmentType.AccountLeaf3]) && true)) = true
      rw [e1, e2]
      rfl
    have hg := holdsB_gate hc hcnd
    have hz : decide (w.cur.direction = ((1 : ℕ) : F)) = true := hg
    have := of_decide_eq_true hz
    simpa using this
  · intro hpath
    have hc := rowHolds_elim h (balanceOld_mem (F := F))
    have e3 : Cond.eval w
        (Cond.pathMatches 0 [PathType.Common, PathType.ExtensionOld]) = true := by
      show decide (w.cur.pathType ∈ [PathType.Common, PathType.ExtensionOld]) = true
      rcases hpath with hh | hh <;> rw [hh] <;> rfl
    have hcnd : (balanceOldConstraint (F := F)).conds.all (Cond.eval w) = true := by
      show (Cond.eval w (Cond.proofMatches [MPTProofType.BalanceChanged])
        && (Cond.eval w (Cond.segMatches 0 [SegmentType.AccountLeaf3])
        && (Cond.eval w (Cond.pathMatches 0 [PathType.Common, PathType.ExtensionOld])
          && true))) = true
      rw [e1, e2, e3]
      rfl
    have hg := holdsB_gate hc hcnd
    have hz : decide (w.cur.oldValue = w.cur.oldHash) = true := hg
    exact of_decide_eq_true hz
  · intro hpath
    have hc := rowHolds_elim h (balanceNew_mem (F := F))
    have e3 : Cond.eval w
        (Cond.pathMatches 0 [PathType.Common, PathType.ExtensionNew]) = true := by
      show decide (w.cur.pathType ∈ [PathType.Common, PathType.ExtensionNew]) = true
      rcases hpath with hh | hh <;> rw [hh] <;> rfl
    have hcnd : (balanceNewConstraint (F := F)).conds.all (Cond.eval w) = true := by
      show (Cond.eval w (Cond.proofMatches [MPTProofType.BalanceChanged])
        && (Cond.eval w (Cond.segMatches 0 [SegmentType.AccountLeaf3])
        && (Cond.eval w (Cond.pathMatches 0 [PathType.Common, PathType.ExtensionNew])
          && true))) = true
      rw [e1, e2, e3]
      rfl
    have hg := holdsB_gate hc hcnd
    have hz : decide (w.cur.newValue = w.cur.newHash) = true := hg
    exact of_decide_eq_true hz

/-- Witness for c9_balance_direct at a concrete Common-path
BalanceChanged AccountLeaf3 window. -/
theorem c9_balance_direct_witness :
    balanceWindow.cur.direction = 1
    ∧ balanceWindow.cur.oldValue = balanceWindow.cur.oldHash
    ∧ balanceWindow.cur.newValue = balanceWindow.cur.newHash := by
  have t := c9_balance_direct trivialOracle balanceWindow rfl rfl (by decide)
  exact ⟨t.1, t.2.1 (Or.inl rfl), t.2.2 (Or.inl rfl)⟩

end ClaimC9

section ClaimC10

/-- C10: on every row whose segment is not Start, the 7-entry lookup
tuple exposes zero in the six data entries (old root, new root, old
value, new value, address, storage key) because each is multiplied by
the Start-segment indicator, while the proof-type entry is exposed
unconditionally. -/
theorem c10_lookup_gating {F : Type} [Field F] [DecidableEq F]
    (enc : MPTProofType → F) (r : Row F)
    (h : r.segmentType ≠ SegmentType.Start) :
    lookupTuple enc r = [enc r.proofType, 0, 0, 0, 0, 0, 0] := by
  unfold lookupTuple isStartInd
  rw [if_neg h]
  simp

/-- Witness for c10_lookup_gating on a concrete AccountTrie row. -/
theorem c10_lookup_gating_witness :
    lookupTuple (fun _ => (0 : FF)) { zRow with segmentType := .AccountTrie }
      = [0, 0, 0, 0, 0, 0, 0] :=
  c10_lookup_gating (fun _ => (0 : FF)) { zRow with segmentType := .AccountTrie }
    (by decide)

end ClaimC10

end MptCircuit
